import Mathlib

/-!
Shallow embedding of `src/authentication.ts` from the league-connect
repository: the `authenticate` entry point, its inner `tryAuthenticate`
attempt, the platform check, the credential-extraction regexes and the
await-mode polling loop.

External effects are passed in as explicit data:
  * the stdout of the process-listing command of attempt `n` is
    `(envs n).stdout : Option String` (`none` models `exec` throwing),
  * the result of reading the bundled `riotgames.pem` during attempt `n`
    is `(envs n).pem : Option String` (`none` models `fs.readFile` throwing),
  * the host platform is a `String` parameter (`process.platform`),
  * the JavaScript event loop of the await-mode promise chain is run for
    `fuel` attempts; an unsettled promise within that horizon is `none`.
-/

/-- Source constant `DEFAULT_POLL_INTERVAL = 2500` (milliseconds). -/
def DEFAULT_POLL_INTERVAL : Nat := 2500

/-- The `Credentials` record of the source.  `port` and `pid` are produced by
`Number(...)` on captured digit strings, modelled as `Nat`; `certificate` is
the optional `certificate?: string` field (`none` models `undefined`). -/
structure Credentials where
  port : Nat
  password : String
  pid : Nat
  certificate : Option String
deriving Repr, DecidableEq

/-- The `AuthenticationOptions` record of the source.  Every field is
optional in TypeScript, hence `Option` here.  The source field named
`unsafe` is called `insecure` in this embedding (the original name is a
Lean keyword); its meaning is unchanged. -/
structure AuthenticationOptions where
  awaitConnection : Option Bool
  pollInterval : Option Nat
  certificate : Option String
  insecure : Option Bool
deriving Repr, DecidableEq

/-- The two error classes thrown by the source: `InvalidPlatformError`
(unsupported platform) and `ClientNotFoundError` (any failure of a single
discovery attempt, thrown by the catch-all in `tryAuthenticate`). -/
inductive AuthError where
  | invalidPlatformError
  | clientNotFoundError
deriving Repr, DecidableEq

/-- Character class `[0-9]` of `portRegex` and `pidRegex`. -/
def isDigitChar (c : Char) : Bool := c.isDigit

/-- Character class `[\w-_]` of `passwordRegex`: JavaScript `\w` is
`[A-Za-z0-9_]`, and the class additionally holds a literal hyphen. -/
def isTokenChar (c : Char) : Bool := c.isAlphanum || c == '_' || c == '-'

/-- One regex-engine step at a fixed position: the literal `marker` must
occur here, immediately followed by at least one character of class `cls`;
the capture group takes the maximal (greedy) run of `cls` characters. -/
def matchAt (marker : List Char) (cls : Char → Bool) (s : List Char) : Option (List Char) :=
  if marker.isPrefixOf s then
    let cap := (s.drop marker.length).takeWhile cls
    if cap.isEmpty then none else some cap
  else none

/-- JavaScript `String.prototype.match` for a regex of shape
`marker(cls+)`: scan left to right and return the first capture, `none`
when the regex matches nowhere (the source then dereferences the match
with `!`, throwing — collapsed by the catch into `ClientNotFoundError`). -/
def firstCapture (marker : List Char) (cls : Char → Bool) : List Char → Option (List Char)
  | [] => none
  | c :: rest =>
    match matchAt marker cls (c :: rest) with
    | some cap => some cap
    | none => firstCapture marker cls rest

/-- Literal part of `portRegex`, pattern `--app-port=([0-9]+)`. -/
def portMarker : List Char := "--app-port=".data

/-- Literal part of `passwordRegex`, pattern `--remoting-auth-token=([\w-_]+)`. -/
def tokenMarker : List Char := "--remoting-auth-token=".data

/-- Literal part of `pidRegex`, pattern `--app-pid=([0-9]+)`. -/
def pidMarker : List Char := "--app-pid=".data

/-- Capture of `stdout.match(portRegex)`. -/
def matchPort (stdout : String) : Option (List Char) :=
  firstCapture portMarker isDigitChar stdout.data

/-- Capture of `stdout.match(passwordRegex)`. -/
def matchPassword (stdout : String) : Option (List Char) :=
  firstCapture tokenMarker isTokenChar stdout.data

/-- Capture of `stdout.match(pidRegex)`. -/
def matchPid (stdout : String) : Option (List Char) :=
  firstCapture pidMarker isDigitChar stdout.data

/-- `Number(...)` applied to a captured string of decimal digits:
base-10 value of the digit sequence. -/
def digitsToNat (ds : List Char) : Nat :=
  ds.foldl (fun acc c => acc * 10 + (c.toNat - '0'.toNat)) 0

/-- Source line `const unsafe = options?.unsafe || typeof options?.unsafe
=== 'undefined'`: true when the option is absent or set to `true`, false
exactly when the caller passes `unsafe: false`. -/
def insecureOf (opts : Option AuthenticationOptions) : Bool :=
  match opts.bind (fun o => o.insecure) with
  | some b => b
  | none => true

/-- The caller-supplied certificate override, `options?.certificate`. -/
def certificateOverrideOf (opts : Option AuthenticationOptions) : Option String :=
  opts.bind (fun o => o.certificate)

/-- Right operand of the `||` in the `certificate:` field computation of
`tryAuthenticate`: `unsafe ? undefined : await fs.readFile(...)`.  A
failing `fs.readFile` (modelled by `pem = none`) throws inside the
surrounding `try`, which the source's catch turns into
`ClientNotFoundError`. -/
def certFieldFallback (opts : Option AuthenticationOptions) (pem : Option String) :
    Except AuthError (Option String) :=
  if insecureOf opts then Except.ok none
  else
    match pem with
    | some content => Except.ok (some content)
    | none => Except.error AuthError.clientNotFoundError

/-- The `certificate:` field computation of `tryAuthenticate`:
`options?.certificate || (unsafe ? undefined : await fs.readFile(...))`.
JavaScript `||` treats the empty string as falsy, so a present, non-empty
override wins and an absent or empty override falls through to
`certFieldFallback`. -/
def certField (opts : Option AuthenticationOptions) (pem : Option String) :
    Except AuthError (Option String) :=
  match certificateOverrideOf opts with
  | some c => if c = "" then certFieldFallback opts pem else Except.ok (some c)
  | none => certFieldFallback opts pem

/-- The inner `tryAuthenticate` closure: run the listing command
(`stdout = none` models `exec` throwing), match the three regexes (a
failed match throws via the `!` dereference), compute the certificate
field, and assemble the record; every throw inside the `try` block is
collapsed by the catch into `ClientNotFoundError`. -/
def tryAuthenticate (opts : Option AuthenticationOptions) (stdout : Option String)
    (pem : Option String) : Except AuthError Credentials :=
  match stdout with
  | none => Except.error AuthError.clientNotFoundError
  | some out =>
    match matchPort out, matchPassword out, matchPid out with
    | some port, some password, some pid =>
      match certField opts pem with
      | Except.ok cert =>
        Except.ok ⟨digitsToNat port, String.mk password, digitsToNat pid, cert⟩
      | Except.error e => Except.error e
    | _, _, _ => Except.error AuthError.clientNotFoundError

/-- The platform guard of `authenticate`:
`['win32', 'linux', 'darwin'].includes(process.platform)`. -/
def supportedPlatform (p : String) : Bool :=
  p == "win32" || p == "linux" || p == "darwin"

/-- The platform-specific process-listing command chosen inside
`tryAuthenticate` (the Platform Process Lister): a WMIC query on Windows,
`ps` piped through `grep` elsewhere. -/
def listerCommand (p : String) : String :=
  if p == "win32" then
    "WMIC PROCESS WHERE name=\x27LeagueClientUx.exe\x27 GET CommandLine"
  else
    "ps x -o args | grep \x27LeagueClientUx\x27"

/-- External inputs of one discovery attempt: the stdout produced by the
listing command (`none` when `exec` throws) and the content of the bundled
`riotgames.pem` (`none` when `fs.readFile` throws). -/
structure AttemptEnv where
  stdout : Option String
  pem : Option String
deriving Repr, DecidableEq

/-- Outcome of running `tryAuthenticate` once in environment `env`. -/
def attemptResult (opts : Option AuthenticationOptions) (env : AttemptEnv) :
    Except AuthError Credentials :=
  tryAuthenticate opts env.stdout env.pem

/-- Source expression `options?.pollInterval ?? DEFAULT_POLL_INTERVAL`
(`??` keeps any present value, including `0`). -/
def pollIntervalOf (opts : Option AuthenticationOptions) : Nat :=
  match opts.bind (fun o => o.pollInterval) with
  | some i => i
  | none => DEFAULT_POLL_INTERVAL

/-- Truthiness test `if (options?.awaitConnection)`. -/
def awaitConnectionOf (opts : Option AuthenticationOptions) : Bool :=
  match opts.bind (fun o => o.awaitConnection) with
  | some b => b
  | none => false

/-- The await-mode promise executor `self`: attempt `n` at virtual time
`t`; on success resolve with the credentials (recording the resolution
time), on failure `setTimeout(self, interval, ...)` reschedules the next
attempt after `interval` ms.  `fuel` bounds how many attempts the event
loop is run for; the first component is `none` while the promise is still
pending within that horizon, and the second component counts the attempts
actually executed. -/
def pollLoop (interval : Nat) (attempt : Nat → Except AuthError Credentials) :
    Nat → Nat → Nat → Option (Except AuthError Credentials × Nat) × Nat
  | 0, _, _ => (none, 0)
  | fuel + 1, n, t =>
    match attempt n with
    | Except.ok c => (some (Except.ok c, t), 1)
    | Except.error _ =>
      ((pollLoop interval attempt fuel (n + 1) (t + interval)).1,
        (pollLoop interval attempt fuel (n + 1) (t + interval)).2 + 1)

/-- The exported `authenticate` function.  The platform guard runs first,
before any attempt and outside any loop; then `options?.awaitConnection`
selects the polling executor or a single `tryAuthenticate` call whose
result is returned directly.  Result: (settled outcome with its
resolution time, or `none` if still pending; number of attempts
executed). -/
def authenticate (opts : Option AuthenticationOptions) (platform : String)
    (envs : Nat → AttemptEnv) (fuel : Nat) :
    Option (Except AuthError Credentials × Nat) × Nat :=
  if supportedPlatform platform then
    if awaitConnectionOf opts then
      pollLoop (pollIntervalOf opts) (fun n => attemptResult opts (envs n)) fuel 0 0
    else
      (some (attemptResult opts (envs 0), 0), 1)
  else
    (some (Except.error AuthError.invalidPlatformError, 0), 0)

/-- Concrete process-listing fragment used by the spec's examples:
`--app-port=56789 --remoting-auth-token=abc-123 --app-pid=4321`. -/
def targetOut : String := "--app-port=56789 --remoting-auth-token=abc-123 --app-pid=4321"

/-- A process listing that CONTAINS `targetOut` as a substring but whose
first marker occurrences carry different values. -/
def shadowedOut : String :=
  "--app-port=1 --remoting-auth-token=x --app-pid=2 --app-port=56789 --remoting-auth-token=abc-123 --app-pid=4321"

/-- A successful single-position match yields a non-empty capture whose
characters all lie in the class. -/
lemma matchAt_some {marker : List Char} {cls : Char → Bool} {s cap : List Char}
    (h : matchAt marker cls s = some cap) : cap ≠ [] ∧ ∀ c ∈ cap, cls c := by
  unfold matchAt at h
  by_cases hpre : marker.isPrefixOf s
  · rw [if_pos hpre] at h
    by_cases hemp : ((s.drop marker.length).takeWhile cls).isEmpty
    · simp only [hemp, if_true] at h
      exact Option.noConfusion h
    · simp only [hemp, if_false] at h
      obtain rfl : (s.drop marker.length).takeWhile cls = cap := by
        simpa using h
      refine ⟨?_, fun c hc => List.mem_takeWhile_imp hc⟩
      intro hnil
      rw [hnil] at hemp
      simp at hemp
  · rw [if_neg hpre] at h
    exact absurd h (by simp)

/-- A successful left-to-right scan yields a non-empty capture of class
characters. -/
lemma firstCapture_some {marker : List Char} {cls : Char → Bool} :
    ∀ {s cap : List Char}, firstCapture marker cls s = some cap →
      cap ≠ [] ∧ ∀ c ∈ cap, cls c := by
  intro s
  induction s with
  | nil => intro cap h; simp [firstCapture] at h
  | cons a rest ih =>
    intro cap h
    rw [firstCapture] at h
    cases hm : matchAt marker cls (a :: rest) with
    | none => rw [hm] at h; exact ih h
    | some cap2 =>
      rw [hm] at h
      obtain rfl : cap2 = cap := by simpa using h
      exact matchAt_some hm

/-- The certificate computation only ever fails with `ClientNotFoundError`,
never with a distinct certificate-load error kind. -/
lemma certField_error_eq {opts : Option AuthenticationOptions} {pem : Option String}
    {e : AuthError} (h : certField opts pem = Except.error e) :
    e = AuthError.clientNotFoundError := by
  have hfb : ∀ e2, certFieldFallback opts pem = Except.error e2 →
      e2 = AuthError.clientNotFoundError := by
    intro e2 h2
    unfold certFieldFallback at h2
    by_cases hins : insecureOf opts
    · rw [if_pos hins] at h2; exact absurd h2 (by simp)
    · rw [if_neg hins] at h2
      cases pem with
      | none => simpa using h2.symm
      | some content => exact absurd h2 (by simp)
  unfold certField at h
  cases hov : certificateOverrideOf opts with
  | none => rw [hov] at h; exact hfb e h
  | some c =>
    rw [hov] at h
    have h2 : (if c = "" then certFieldFallback opts pem else Except.ok (some c)) =
        Except.error e := h
    by_cases hc : c = ""
    · rw [if_pos hc] at h2; exact hfb e h2
    · rw [if_neg hc] at h2; exact absurd h2 (by simp)

/-- Success of an attempt forces all three captures to succeed and
determines every field of the returned record. -/
lemma tryAuthenticate_ok_iff {opts : Option AuthenticationOptions} {out : String}
    {pem : Option String} {c : Credentials} :
    tryAuthenticate opts (some out) pem = Except.ok c ↔
      ∃ ds ts qs cert, matchPort out = some ds ∧ matchPassword out = some ts ∧
        matchPid out = some qs ∧ certField opts pem = Except.ok cert ∧
        c = ⟨digitsToNat ds, String.mk ts, digitsToNat qs, cert⟩ := by
  cases h1 : matchPort out <;> cases h2 : matchPassword out <;> cases h3 : matchPid out <;>
    simp [tryAuthenticate, h1, h2, h3]
  cases h4 : certField opts pem with
  | error e => simp [h4]
  | ok cert =>
    simp [h4]
    constructor
    · intro h; exact h.symm
    · intro h; exact h.symm

/-- Every failure of a single attempt is the catch-all
`ClientNotFoundError`. -/
lemma tryAuthenticate_error_eq {opts : Option AuthenticationOptions}
    {stdout pem : Option String} {e : AuthError}
    (h : tryAuthenticate opts stdout pem = Except.error e) :
    e = AuthError.clientNotFoundError := by
  cases stdout with
  | none =>
    simp only [tryAuthenticate] at h
    exact (Except.error.inj h).symm
  | some out =>
    cases h1 : matchPort out <;> cases h2 : matchPassword out <;> cases h3 : matchPid out <;>
      simp only [tryAuthenticate, h1, h2, h3] at h <;>
      try exact (Except.error.inj h).symm
    cases h4 : certField opts pem with
    | error e2 =>
      rw [h4] at h
      have h5 : (Except.error e2 : Except AuthError Credentials) = Except.error e := h
      exact (Except.error.inj h5) ▸ certField_error_eq h4
    | ok cert =>
      rw [h4] at h
      exact absurd h (by simp)

/-- A single attempt can never throw `InvalidPlatformError`. -/
lemma tryAuthenticate_ne_invalidPlatform (opts : Option AuthenticationOptions)
    (stdout pem : Option String) :
    tryAuthenticate opts stdout pem ≠ Except.error AuthError.invalidPlatformError := by
  intro h
  exact absurd (tryAuthenticate_error_eq h) (by simp)

/-- The await-mode executor never settles with an error: the catch swallows
every failed attempt. -/
lemma pollLoop_no_error (interval : Nat) (attempt : Nat → Except AuthError Credentials) :
    ∀ fuel n t e time, (pollLoop interval attempt fuel n t).1 ≠ some (Except.error e, time) := by
  intro fuel
  induction fuel with
  | zero => intro n t e time; simp [pollLoop]
  | succ f ih =>
    intro n t e time
    cases ha : attempt n with
    | ok c => simp [pollLoop, ha]
    | error e2 => simpa [pollLoop, ha] using ih (n + 1) (t + interval) e time

/-- If every attempt within the horizon fails, the promise is still
pending and exactly `fuel` attempts were executed. -/
lemma pollLoop_all_fail (interval : Nat) (attempt : Nat → Except AuthError Credentials) :
    ∀ fuel n t, (∀ k, k < fuel → ∃ e, attempt (n + k) = Except.error e) →
      pollLoop interval attempt fuel n t = (none, fuel) := by
  intro fuel
  induction fuel with
  | zero => intro n t _; simp [pollLoop]
  | succ f ih =>
    intro n t hfail
    obtain ⟨e, he⟩ := hfail 0 (Nat.succ_pos f)
    rw [Nat.add_zero] at he
    have hrec := ih (n + 1) (t + interval) (fun k hk => by
      have h2 := hfail (k + 1) (by omega)
      have h3 : n + (k + 1) = n + 1 + k := by omega
      rwa [h3] at h2)
    simp [pollLoop, he, hrec]

/-- If attempt `n + m` is the first to succeed, the loop resolves with its
credentials after `m` constant-length waits, having executed `m + 1`
attempts. -/
lemma pollLoop_first_success (interval : Nat) (attempt : Nat → Except AuthError Credentials) :
    ∀ m fuel n t c, attempt (n + m) = Except.ok c →
      (∀ k, k < m → ∃ e, attempt (n + k) = Except.error e) →
      m < fuel →
      pollLoop interval attempt fuel n t = (some (Except.ok c, t + m * interval), m + 1) := by
  intro m
  induction m with
  | zero =>
    intro fuel n t c hok _ hf
    cases fuel with
    | zero => omega
    | succ f =>
      rw [Nat.add_zero] at hok
      simp [pollLoop, hok]
  | succ m ih =>
    intro fuel n t c hok hfail hf
    cases fuel with
    | zero => omega
    | succ f =>
      obtain ⟨e, he⟩ := hfail 0 (Nat.succ_pos m)
      rw [Nat.add_zero] at he
      have hok2 : attempt (n + 1 + m) = Except.ok c := by
        have h3 : n + (m + 1) = n + 1 + m := by omega
        rwa [h3] at hok
      have hfail2 : ∀ k, k < m → ∃ e2, attempt (n + 1 + k) = Except.error e2 := by
        intro k hk
        have h2 := hfail (k + 1) (by omega)
        have h3 : n + (k + 1) = n + 1 + k := by omega
        rwa [h3] at h2
      have hrec := ih f (n + 1) (t + interval) c hok2 hfail2 (by omega)
      have harith : t + interval + m * interval = t + (m + 1) * interval := by ring
      simp [pollLoop, he, hrec, harith]

/-- Unfolding of `authenticate` in await mode on a supported platform. -/
lemma authenticate_await_eq (opts : Option AuthenticationOptions) (platform : String)
    (envs : Nat → AttemptEnv) (fuel : Nat)
    (hplat : supportedPlatform platform = true) (hawait : awaitConnectionOf opts = true) :
    authenticate opts platform envs fuel =
      pollLoop (pollIntervalOf opts) (fun n => attemptResult opts (envs n)) fuel 0 0 := by
  simp [authenticate, hplat, hawait]

/-- Unfolding of `authenticate` in immediate mode on a supported platform. -/
lemma authenticate_immediate_eq (opts : Option AuthenticationOptions) (platform : String)
    (envs : Nat → AttemptEnv) (fuel : Nat)
    (hplat : supportedPlatform platform = true) (hawait : awaitConnectionOf opts = false) :
    authenticate opts platform envs fuel = (some (attemptResult opts (envs 0), 0), 1) := by
  simp [authenticate, hplat, hawait]

/-- Two option records whose certificate computations agree produce
identical attempt results on every input. -/
lemma tryAuthenticate_congr_cert (opts1 opts2 : Option AuthenticationOptions)
    (stdout pem : Option String)
    (h : certField opts1 pem = certField opts2 pem) :
    tryAuthenticate opts1 stdout pem = tryAuthenticate opts2 stdout pem := by
  cases stdout with
  | none => rfl
  | some out =>
    cases h1 : matchPort out <;> cases h2 : matchPassword out <;> cases h3 : matchPid out <;>
      simp [tryAuthenticate, h1, h2, h3, h]

/-- C1 counterexample: with `unsafe: false`, no override, a fully matching
process listing but a failing read of the bundled certificate file, the
attempt fails with `ClientNotFoundError` — the single error kind that
models a transient DiscoveryFailure — not with a distinct fatal
certificate-load error; and in await mode the failed attempt IS retried:
when the read succeeds on the second attempt the call resolves after two
executed attempts instead of surfacing the first failure. -/
theorem cert_load_failure_counterexample :
    tryAuthenticate (some ⟨none, none, none, some false⟩) (some targetOut) none =
      Except.error AuthError.clientNotFoundError ∧
    authenticate (some ⟨some true, none, none, some false⟩) "linux"
      (fun n => if n == 0 then ⟨some targetOut, none⟩ else ⟨some targetOut, some "PEM"⟩) 2 =
      (some (Except.ok ⟨56789, "abc-123", 4321, some "PEM"⟩, 2500), 2) :=
  ⟨rfl, rfl⟩

/-- C1 (amended): when a bundled trust certificate is required (`unsafe`
explicitly false, no certificate override) and reading the bundled file
fails, the attempt fails with `ClientNotFoundError`, i.e. it is classified
exactly like a transient DiscoveryFailure, and in await mode it is
swallowed by the poll loop — never surfaced to the caller — and retried
like any other failed attempt. -/
theorem cert_load_failure_is_discovery_failure
    (opts : Option AuthenticationOptions) (stdout : Option String)
    (platform : String) (envs : Nat → AttemptEnv) (fuel : Nat)
    (hins : insecureOf opts = false) (hov : certificateOverrideOf opts = none) :
    tryAuthenticate opts stdout none = Except.error AuthError.clientNotFoundError ∧
    (awaitConnectionOf opts = true → supportedPlatform platform = true →
      ∀ e t, (authenticate opts platform envs fuel).1 ≠ some (Except.error e, t)) := by
  constructor
  · have hcf : certField opts none = Except.error AuthError.clientNotFoundError := by
      simp [certField, certFieldFallback, hov, hins]
    cases stdout with
    | none => rfl
    | some out =>
      cases h1 : matchPort out <;> cases h2 : matchPassword out <;> cases h3 : matchPid out <;>
        simp [tryAuthenticate, h1, h2, h3, hcf]
  · intro hawait hplat e t
    rw [authenticate_await_eq opts platform envs fuel hplat hawait]
    exact pollLoop_no_error _ _ fuel 0 0 e t

/-- C1 witness: the amended theorem at a concrete await-mode configuration
with `unsafe: false` and a failing certificate read on every attempt. -/
theorem cert_load_failure_is_discovery_failure_witness :
    tryAuthenticate (some ⟨some true, none, none, some false⟩) (some targetOut) none =
      Except.error AuthError.clientNotFoundError ∧
    (authenticate (some ⟨some true, none, none, some false⟩) "linux"
        (fun _ => ⟨some targetOut, none⟩) 3).1 ≠
      some (Except.error AuthError.clientNotFoundError, 0) := by
  have h := cert_load_failure_is_discovery_failure
    (some ⟨some true, none, none, some false⟩) (some targetOut) "linux"
    (fun _ => ⟨some targetOut, none⟩) 3 rfl rfl
  exact ⟨h.1, h.2 rfl rfl AuthError.clientNotFoundError 0⟩

/-- C2: in await mode on a supported platform, (a) no error outcome is
ever surfaced whatever the attempt outcomes; (b) if every attempt within
the executed horizon fails the call is still unsettled — for every horizon,
so there is no maximum attempt count; (c) if attempt `m` is the first to
succeed, the call resolves with its credentials at time
`m * pollIntervalOf opts`, a constant wait between consecutive attempts,
after exactly `m + 1` attempts; (d) the interval defaults to 2500 ms when
`pollInterval` is unset. -/
theorem await_mode_never_errors_and_polls
    (opts : Option AuthenticationOptions) (platform : String) (envs : Nat → AttemptEnv)
    (hplat : supportedPlatform platform = true) (hawait : awaitConnectionOf opts = true) :
    (∀ fuel e t, (authenticate opts platform envs fuel).1 ≠ some (Except.error e, t)) ∧
    (∀ fuel, (∀ k, k < fuel → ∃ e, attemptResult opts (envs k) = Except.error e) →
      (authenticate opts platform envs fuel).1 = none) ∧
    (∀ m c fuel, attemptResult opts (envs m) = Except.ok c →
      (∀ k, k < m → ∃ e, attemptResult opts (envs k) = Except.error e) →
      m < fuel →
      authenticate opts platform envs fuel =
        (some (Except.ok c, m * pollIntervalOf opts), m + 1)) ∧
    ((opts.bind fun o => o.pollInterval) = none → pollIntervalOf opts = 2500) := by
  refine ⟨?_, ?_, ?_, ?_⟩
  · intro fuel e t
    rw [authenticate_await_eq opts platform envs fuel hplat hawait]
    exact pollLoop_no_error _ _ fuel 0 0 e t
  · intro fuel hfail
    rw [authenticate_await_eq opts platform envs fuel hplat hawait]
    rw [pollLoop_all_fail _ _ fuel 0 0 (fun k hk => by simpa using hfail k hk)]
  · intro m c fuel hok hfail hf
    rw [authenticate_await_eq opts platform envs fuel hplat hawait]
    have h := pollLoop_first_success (pollIntervalOf opts)
      (fun n => attemptResult opts (envs n)) m fuel 0 0 c (by simpa using hok)
      (fun k hk => by simpa using hfail k hk) hf
    simpa using h
  · intro hnone
    simp [pollIntervalOf, hnone, DEFAULT_POLL_INTERVAL]

/-- C2 witness: first attempt fails, second succeeds; the await-mode call
resolves with the second attempt's credentials at the default 2500 ms
after two executed attempts. -/
theorem await_mode_witness :
    authenticate (some ⟨some true, none, none, none⟩) "linux"
      (fun n => if n == 1 then ⟨some targetOut, none⟩ else ⟨none, none⟩) 2 =
      (some (Except.ok ⟨56789, "abc-123", 4321, none⟩, 2500), 2) := by
  have h := (await_mode_never_errors_and_polls (some ⟨some true, none, none, none⟩) "linux"
      (fun n => if n == 1 then ⟨some targetOut, none⟩ else ⟨none, none⟩) rfl rfl).2.2.1
      1 ⟨56789, "abc-123", 4321, none⟩ 2 rfl
      (fun k hk => ⟨AuthError.clientNotFoundError, by
        have hk0 : k = 0 := by omega
        subst hk0
        rfl⟩)
      (by omega)
  exact h

/-- C3: for every configuration and mode, an unsupported platform makes
`authenticate` fail with `InvalidPlatformError` with zero attempts
executed (so no process-listing command ever ran); and on a supported
platform no attempt — first or retried — can ever produce
`InvalidPlatformError`, i.e. the platform check lives outside the retry
loop and fires at most once, up front. -/
theorem platform_check_before_any_attempt
    (opts : Option AuthenticationOptions) (platform : String)
    (envs : Nat → AttemptEnv) (fuel : Nat) :
    (supportedPlatform platform = false →
      authenticate opts platform envs fuel =
        (some (Except.error AuthError.invalidPlatformError, 0), 0)) ∧
    (supportedPlatform platform = true →
      ∀ t, (authenticate opts platform envs fuel).1 ≠
        some (Except.error AuthError.invalidPlatformError, t)) := by
  constructor
  · intro hplat
    simp [authenticate, hplat]
  · intro hplat t
    cases hawait : awaitConnectionOf opts with
    | true =>
      rw [authenticate_await_eq opts platform envs fuel hplat hawait]
      exact pollLoop_no_error _ _ fuel 0 0 _ t
    | false =>
      rw [authenticate_immediate_eq opts platform envs fuel hplat hawait]
      intro hcontra
      simp only [Option.some.injEq, Prod.mk.injEq] at hcontra
      exact tryAuthenticate_ne_invalidPlatform opts _ _ hcontra.1

/-- C3 witness: on the unsupported platform string the call fails with
`InvalidPlatformError` and zero executed attempts; on a supported platform
the outcome is never `InvalidPlatformError`. -/
theorem platform_check_witness :
    authenticate none "freebsd" (fun _ => ⟨none, none⟩) 5 =
      (some (Except.error AuthError.invalidPlatformError, 0), 0) ∧
    (authenticate none "linux" (fun _ => ⟨none, none⟩) 1).1 ≠
      some (Except.error AuthError.invalidPlatformError, 0) :=
  ⟨(platform_check_before_any_attempt none "freebsd" (fun _ => ⟨none, none⟩) 5).1 rfl,
    (platform_check_before_any_attempt none "linux" (fun _ => ⟨none, none⟩) 1).2 rfl 0⟩

/-- C4: extraction is all-or-nothing.  If any of the three patterns fails
to match the listing output, the attempt fails with `ClientNotFoundError`
(the DiscoveryFailure); and every successful attempt carries all three
captures, its `port`, `password` and `pid` fields being exactly the parsed
captures — no partial record is ever produced. -/
theorem extraction_all_or_nothing
    (opts : Option AuthenticationOptions) (out : String) (pem : Option String) :
    ((matchPort out = none ∨ matchPassword out = none ∨ matchPid out = none) →
      tryAuthenticate opts (some out) pem = Except.error AuthError.clientNotFoundError) ∧
    (∀ c, tryAuthenticate opts (some out) pem = Except.ok c →
      ∃ ds ts qs, matchPort out = some ds ∧ matchPassword out = some ts ∧
        matchPid out = some qs ∧ c.port = digitsToNat ds ∧
        c.password = String.mk ts ∧ c.pid = digitsToNat qs) := by
  constructor
  · intro hmiss
    cases h1 : matchPort out <;> cases h2 : matchPassword out <;> cases h3 : matchPid out <;>
      simp [tryAuthenticate, h1, h2, h3]
    exact absurd hmiss (by simp [h1, h2, h3])
  · intro c hok
    obtain ⟨ds, ts, qs, cert, h1, h2, h3, _, rfl⟩ := tryAuthenticate_ok_iff.mp hok
    exact ⟨ds, ts, qs, h1, h2, h3, rfl, rfl, rfl⟩

/-- C4 witness: an output with port and token markers but no pid marker
fails the whole attempt with `ClientNotFoundError`. -/
theorem extraction_all_or_nothing_witness :
    matchPid "--app-port=5 --remoting-auth-token=x" = none ∧
    tryAuthenticate none (some "--app-port=5 --remoting-auth-token=x") none =
      Except.error AuthError.clientNotFoundError :=
  ⟨rfl, (extraction_all_or_nothing none "--app-port=5 --remoting-auth-token=x" none).1
    (Or.inr (Or.inr rfl))⟩

/-- C5 counterexample: with `unsafe` UNSET and no override the source
computes `unsafe = true`, so the returned certificate is `undefined`
(`none`), NOT the content of the bundled default file — here present and
readable as "PEMDATA". -/
theorem certificate_default_counterexample :
    tryAuthenticate none (some targetOut) (some "PEMDATA") =
      Except.ok ⟨56789, "abc-123", 4321, none⟩ ∧
    (none : Option String) ≠ some "PEMDATA" :=
  ⟨rfl, by simp⟩

/-- C5 (amended): on a successful attempt, with no certificate override
the certificate is absent whenever `unsafe` is unset or true, and equals
the bundled file content only when `unsafe` is explicitly false; a
non-empty override is returned verbatim regardless of `unsafe`. -/
theorem certificate_field_determination
    (opts : Option AuthenticationOptions) (out : String) (pemContent : String)
    (c : Credentials)
    (h : tryAuthenticate opts (some out) (some pemContent) = Except.ok c) :
    (certificateOverrideOf opts = none → insecureOf opts = true → c.certificate = none) ∧
    (certificateOverrideOf opts = none → insecureOf opts = false →
      c.certificate = some pemContent) ∧
    (∀ ov, certificateOverrideOf opts = some ov → ov ≠ "" → c.certificate = some ov) := by
  obtain ⟨ds, ts, qs, cert, _, _, _, hcf, rfl⟩ := tryAuthenticate_ok_iff.mp h
  refine ⟨?_, ?_, ?_⟩
  · intro hov hins
    have h2 : certField opts (some pemContent) = Except.ok none := by
      simp [certField, certFieldFallback, hov, hins]
    rw [h2] at hcf
    exact (Except.ok.inj hcf).symm
  · intro hov hins
    have h2 : certField opts (some pemContent) = Except.ok (some pemContent) := by
      simp [certField, certFieldFallback, hov, hins]
    rw [h2] at hcf
    exact (Except.ok.inj hcf).symm
  · intro ov hov hne
    have h2 : certField opts (some pemContent) = Except.ok (some ov) := by
      simp [certField, certFieldFallback, hov, hne]
    rw [h2] at hcf
    exact (Except.ok.inj hcf).symm

/-- C5 witness: with `unsafe: false` and no override the certificate of a
successful attempt equals the bundled file content. -/
theorem certificate_field_determination_witness :
    tryAuthenticate (some ⟨none, none, none, some false⟩) (some targetOut) (some "PEM") =
      Except.ok ⟨56789, "abc-123", 4321, some "PEM"⟩ ∧
    (⟨56789, "abc-123", 4321, some "PEM"⟩ : Credentials).certificate = some "PEM" :=
  ⟨rfl, (certificate_field_determination (some ⟨none, none, none, some false⟩) targetOut "PEM"
    ⟨56789, "abc-123", 4321, some "PEM"⟩ rfl).2.1 rfl rfl⟩

/-- C6: in immediate mode (awaitConnection falsy) on a supported platform
`authenticate` executes exactly one attempt and its outcome — success or
`ClientNotFoundError` — is the outcome of the whole call. -/
theorem immediate_mode_single_attempt
    (opts : Option AuthenticationOptions) (platform : String)
    (envs : Nat → AttemptEnv) (fuel : Nat)
    (hplat : supportedPlatform platform = true)
    (hawait : awaitConnectionOf opts = false) :
    authenticate opts platform envs fuel =
      (some (attemptResult opts (envs 0), 0), 1) :=
  authenticate_immediate_eq opts platform envs fuel hplat hawait

/-- C6 witness: a failing first attempt in immediate mode fails the whole
call with exactly one executed attempt. -/
theorem immediate_mode_single_attempt_witness :
    authenticate none "darwin" (fun _ => ⟨none, none⟩) 7 =
      (some (Except.error AuthError.clientNotFoundError, 0), 1) :=
  immediate_mode_single_attempt none "darwin" (fun _ => ⟨none, none⟩) 7 rfl rfl

/-- C7 counterexample: `shadowedOut` CONTAINS the quoted substring (it is
a suffix), yet JavaScript `match` returns the first occurrence of each
pattern, so the attempt extracts `port=1`, `password="x"`, `pid=2` — not
`port=56789`. -/
theorem containing_substring_counterexample :
    shadowedOut = "--app-port=1 --remoting-auth-token=x --app-pid=2 " ++ targetOut ∧
    tryAuthenticate none (some shadowedOut) none = Except.ok ⟨1, "x", 2, none⟩ ∧
    (1 : Nat) ≠ 56789 :=
  ⟨rfl, rfl, by decide⟩

/-- C7 (amended): for listing output whose FIRST marker occurrences are
those of `--app-port=56789 --remoting-auth-token=abc-123 --app-pid=4321`
(in particular output equal to that fragment), a single attempt succeeds
and extracts port 56789, password "abc-123" and pid 4321, the numeric
fields parsed base-10 from the captured digit sequences. -/
theorem extraction_example_exact :
    tryAuthenticate none (some targetOut) none =
      Except.ok ⟨56789, "abc-123", 4321, none⟩ ∧
    matchPort targetOut = some "56789".data ∧
    matchPassword targetOut = some "abc-123".data ∧
    matchPid targetOut = some "4321".data ∧
    digitsToNat "56789".data = 56789 ∧ digitsToNat "4321".data = 4321 :=
  ⟨rfl, rfl, rfl, rfl, rfl, rfl⟩

/-- C9 counterexample: the digit pattern also matches `0`, so a successful
discovery can return `port = 0` and `pid = 0`, which are not positive. -/
theorem positive_port_counterexample :
    tryAuthenticate none (some "--app-port=0 --remoting-auth-token=t --app-pid=0") none =
      Except.ok ⟨0, "t", 0, none⟩ ∧ ¬ (0 < (0 : Nat)) :=
  ⟨rfl, by decide⟩

/-- C9 (amended): every successful discovery has a non-empty password and
`port` and `pid` equal to the base-10 value of non-empty all-digit
captures — hence non-negative integers, but possibly zero. -/
theorem credentials_field_shape
    (opts : Option AuthenticationOptions) (out : String) (pem : Option String)
    (c : Credentials) (h : tryAuthenticate opts (some out) pem = Except.ok c) :
    c.password ≠ "" ∧
    ∃ ds qs, matchPort out = some ds ∧ matchPid out = some qs ∧
      ds ≠ [] ∧ qs ≠ [] ∧ (∀ d ∈ ds, isDigitChar d) ∧ (∀ d ∈ qs, isDigitChar d) ∧
      c.port = digitsToNat ds ∧ c.pid = digitsToNat qs := by
  obtain ⟨ds, ts, qs, cert, h1, h2, h3, _, rfl⟩ := tryAuthenticate_ok_iff.mp h
  have h1f : firstCapture portMarker isDigitChar out.data = some ds := h1
  have h2f : firstCapture tokenMarker isTokenChar out.data = some ts := h2
  have h3f : firstCapture pidMarker isDigitChar out.data = some qs := h3
  have hds := firstCapture_some h1f
  have hts := firstCapture_some h2f
  have hqs := firstCapture_some h3f
  refine ⟨?_, ds, qs, h1, h3, hds.1, hqs.1, hds.2, hqs.2, rfl, rfl⟩
  intro hq
  exact hts.1 (congrArg String.data hq)

/-- C9 witness: a concrete successful discovery whose password is the
non-empty token "abc-123". -/
theorem credentials_field_shape_witness :
    tryAuthenticate none (some targetOut) none =
      Except.ok ⟨56789, "abc-123", 4321, none⟩ ∧
    ("abc-123" : String) ≠ "" :=
  ⟨rfl, (credentials_field_shape none targetOut none ⟨56789, "abc-123", 4321, none⟩ rfl).1⟩

/-- C10: an empty-string certificate override behaves exactly as no
override: the attempt result is unchanged when the override is removed,
the certificate falls through to the unsafe/bundled-default logic (`none`
when `unsafe` is true or unset, the bundled content when `unsafe` is
explicitly false), and it never equals the empty override string — granted
the bundled file content itself is non-empty. -/
theorem empty_override_falls_through
    (o : AuthenticationOptions) (stdout pem : Option String)
    (hov : o.certificate = some "") :
    tryAuthenticate (some o) stdout pem =
      tryAuthenticate (some ⟨o.awaitConnection, o.pollInterval, none, o.insecure⟩) stdout pem ∧
    (∀ c, tryAuthenticate (some o) stdout pem = Except.ok c →
      (insecureOf (some o) = true → c.certificate = none) ∧
      (insecureOf (some o) = false → ∃ p, pem = some p ∧ c.certificate = some p)) ∧
    (∀ c p, tryAuthenticate (some o) stdout pem = Except.ok c → pem = some p → p ≠ "" →
      c.certificate ≠ some "") := by
  have hcf : certField (some o) pem = certFieldFallback (some o) pem := by
    simp [certField, certificateOverrideOf, hov]
  have key : ∀ c, tryAuthenticate (some o) stdout pem = Except.ok c →
      (insecureOf (some o) = true → c.certificate = none) ∧
      (insecureOf (some o) = false → ∃ p, pem = some p ∧ c.certificate = some p) := by
    intro c hok
    cases stdout with
    | none => exact absurd hok (by simp [tryAuthenticate])
    | some out =>
      obtain ⟨ds, ts, qs, cert, _, _, _, hc4, rfl⟩ := tryAuthenticate_ok_iff.mp hok
      rw [hcf] at hc4
      constructor
      · intro hins
        have h2 : certFieldFallback (some o) pem = Except.ok none := by
          simp [certFieldFallback, hins]
        rw [h2] at hc4
        exact (Except.ok.inj hc4).symm
      · intro hins
        cases pem with
        | none =>
          rw [show certFieldFallback (some o) none = Except.error AuthError.clientNotFoundError
            from by simp [certFieldFallback, hins]] at hc4
          exact absurd hc4 (by simp)
        | some p =>
          refine ⟨p, rfl, ?_⟩
          have h2 : certFieldFallback (some o) (some p) = Except.ok (some p) := by
            simp [certFieldFallback, hins]
          rw [h2] at hc4
          exact (Except.ok.inj hc4).symm
  refine ⟨?_, key, ?_⟩
  · apply tryAuthenticate_congr_cert
    rw [hcf]
    rfl
  · intro c p hok hpem hpne
    have hk := key c hok
    cases hins : insecureOf (some o) with
    | true =>
      rw [hk.1 hins]
      simp
    | false =>
      obtain ⟨p2, hp2, hcert⟩ := hk.2 hins
      rw [hpem] at hp2
      obtain rfl : p = p2 := by simpa using hp2
      rw [hcert]
      simp [hpne]

/-- C10 witness: on a concrete input, the result with override `""` equals
the result with no override, and the returned certificate (the bundled
content "PEM") differs from the empty string. -/
theorem empty_override_falls_through_witness :
    tryAuthenticate (some ⟨none, none, some "", some false⟩) (some targetOut) (some "PEM") =
      tryAuthenticate (some ⟨none, none, none, some false⟩) (some targetOut) (some "PEM") ∧
    (⟨56789, "abc-123", 4321, some "PEM"⟩ : Credentials).certificate ≠ some "" := by
  have h := empty_override_falls_through ⟨none, none, some "", some false⟩
    (some targetOut) (some "PEM") rfl
  exact ⟨h.1, h.2.2 ⟨56789, "abc-123", 4321, some "PEM"⟩ "PEM" rfl rfl (by simp)⟩
